import Mathlib

/-!
Shallow embedding of the bytecode virtual machine in `src/core/vdbe.rs` and
of the synchronous file backend in `src/core/io/windows.rs`.

The VM (`Program::step`) is embedded as a fuel-indexed dispatch loop over an
explicit `ProgramState`.  The B-Tree cursor lives outside `src/`, so `step`
is parametric in a cursor type `κ` together with the operations of the
`Cursor` trait that `vdbe.rs` invokes (`rewind`, `next`,
`wait_for_completion`, `is_empty`, `record`, `rowid`); each theorem
quantifies over these, so it holds for every cursor implementation.
Rust panics (`todo!`, `unreachable!`, `Option::unwrap` on `None`, index out
of bounds) are modelled by a distinguished `panicked` outcome, and `?`-style
propagated `anyhow` errors by an `err` outcome.
-/

/-- Values stored in VM registers (`OwnedValue` in `crate::types`); the VM in
`vdbe.rs` constructs only the `Null`, `Integer` and `Text` variants. -/
inductive OwnedValue where
  | Null : OwnedValue
  | Integer : Int → OwnedValue
  | Text : String → OwnedValue
deriving DecidableEq, Repr

/-- Result of a cursor operation (`CursorResult` in `crate::types`): either
the operation finished, or I/O is pending. -/
inductive CursorResult where
  | Ok : CursorResult
  | Io : CursorResult
deriving DecidableEq, Repr

/-- The instruction set of the VM (`enum Insn` in `vdbe.rs`). -/
inductive Insn where
  | Init (target_pc : Nat)
  | OpenReadAsync (cursor_id : Nat) (root_page : Nat)
  | OpenReadAwait
  | RewindAsync (cursor_id : Nat)
  | RewindAwait (cursor_id : Nat) (pc_if_empty : Nat)
  | Column (cursor_id : Nat) (column : Nat) (dest : Nat)
  | ResultRow (register_start : Nat) (register_end : Nat)
  | NextAsync (cursor_id : Nat)
  | NextAwait (cursor_id : Nat) (pc_if_next : Nat)
  | Halt
  | Transaction
  | Goto (target_pc : Nat)
  | Integer (value : Int) (dest : Nat)
  | String8 (value : String) (dest : Nat)
  | RowId (cursor_id : Nat) (dest : Nat)
  | DecrJumpZero (reg : Nat) (target_pc : Nat)
deriving DecidableEq, Repr

/-- `enum ProgramType` in `vdbe.rs`. -/
inductive ProgramType where
  | Default
  | PragmaChange (pragma : String) (value : Int)
deriving DecidableEq, Repr

/-- `struct Program` in `vdbe.rs`: immutable after build. -/
structure Program where
  max_registers : Nat
  insns : List Insn
  program_type : ProgramType
deriving Repr

/-- `struct ProgramState` in `vdbe.rs`: program counter, cursor table
(a map from cursor IDs to cursors) and the register file. -/
structure ProgramState (κ : Type) where
  pc : Nat
  cursors : Nat → Option κ
  registers : List OwnedValue

/-- `ProgramState::new`: PC 0, no cursors, `max_registers` registers all
initialized to `Null`. -/
def ProgramState.new (κ : Type) (max_registers : Nat) : ProgramState κ :=
  { pc := 0, cursors := fun _ => none,
    registers := List.replicate max_registers OwnedValue.Null }

/-- `ProgramState::column_count`: returns `self.registers.len()`. -/
def ProgramState.column_count (s : ProgramState κ) : Nat :=
  s.registers.length

/-- `BTreeMap::insert` on the cursor table. -/
def cursorsInsert (m : Nat → Option κ) (k : Nat) (v : κ) : Nat → Option κ :=
  fun j => if j = k then some v else m j

/-- The operations of the `Cursor` trait that `Program::step` invokes,
together with `BTreeCursor::new` used by `OpenReadAsync`.  `rewind` and
`next` may update the cursor (they mutate through `get_mut` in Rust) and may
fail with an `anyhow` error; `wait_for_completion` likewise;
`is_empty` is a pure query; `record` and `rowid` return the current row /
rowid, `none` when the cursor has no current position. -/
structure CursorOps (κ : Type) where
  new_cursor : Nat → κ
  rewind : κ → Except String (CursorResult × κ)
  next : κ → Except String (CursorResult × κ)
  wait_for_completion : κ → Except String κ
  is_empty : κ → Bool
  record : κ → Except String (Option (List OwnedValue))
  rowid : κ → Except String (Option Int)

/-- `StepResult` in `vdbe.rs`: what `Program::step` hands back to the
caller.  A `Record` is its list of values. -/
inductive StepResult where
  | Done : StepResult
  | Io : StepResult
  | Row : List OwnedValue → StepResult
deriving DecidableEq, Repr

/-- Outcome of dispatching a single instruction inside the `step` loop:
continue looping with a new state, return a `StepResult`, propagate an
error (`?` on a cursor call), or panic. -/
inductive VmTrans (κ : Type) where
  | cont : ProgramState κ → VmTrans κ
  | ret : StepResult → ProgramState κ → VmTrans κ
  | err : String → ProgramState κ → VmTrans κ
  | panicked : String → VmTrans κ

/-- `fn make_record`: collect `registers[register_start..register_end]`.
Returns `none` when the Rust loop would index out of bounds (which panics);
when `register_start ≥ register_end` the loop body never runs. -/
def make_record (registers : List OwnedValue) (register_end : Nat)
    (register_start : Nat) : Option (List OwnedValue) :=
  if register_end ≤ register_start then some []
  else if register_end ≤ registers.length then
    some ((registers.drop register_start).take (register_end - register_start))
  else none

/-- One iteration of the dispatch loop of `Program::step`: read
`insns[state.pc]` and execute it.  Mirrors the `match insn` in `vdbe.rs`
arm by arm. -/
def execInsn (ops : CursorOps κ) (p : Program) (s : ProgramState κ) :
    VmTrans κ :=
  match p.insns[s.pc]? with
  | none => VmTrans.panicked "instruction index out of bounds"
  | some insn =>
    match insn with
    | Insn.Init target_pc => VmTrans.cont { s with pc := target_pc }
    | Insn.OpenReadAsync cursor_id root_page =>
      VmTrans.cont { s with
        cursors := cursorsInsert s.cursors cursor_id (ops.new_cursor root_page),
        pc := s.pc + 1 }
    | Insn.OpenReadAwait => VmTrans.cont { s with pc := s.pc + 1 }
    | Insn.RewindAsync cursor_id =>
      match s.cursors cursor_id with
      | none => VmTrans.panicked "unwrap on None"
      | some cursor =>
        match ops.rewind cursor with
        | Except.error e => VmTrans.err e s
        | Except.ok (CursorResult.Io, cursor') =>
          VmTrans.ret StepResult.Io
            { s with cursors := cursorsInsert s.cursors cursor_id cursor' }
        | Except.ok (CursorResult.Ok, cursor') =>
          VmTrans.cont { s with
            cursors := cursorsInsert s.cursors cursor_id cursor',
            pc := s.pc + 1 }
    | Insn.RewindAwait cursor_id pc_if_empty =>
      match s.cursors cursor_id with
      | none => VmTrans.panicked "unwrap on None"
      | some cursor =>
        match ops.wait_for_completion cursor with
        | Except.error e => VmTrans.err e s
        | Except.ok cursor' =>
          if ops.is_empty cursor' then
            VmTrans.cont { s with
              cursors := cursorsInsert s.cursors cursor_id cursor',
              pc := pc_if_empty }
          else
            VmTrans.cont { s with
              cursors := cursorsInsert s.cursors cursor_id cursor',
              pc := s.pc + 1 }
    | Insn.Column cursor_id column dest =>
      match s.cursors cursor_id with
      | none => VmTrans.panicked "unwrap on None"
      | some cursor =>
        match ops.record cursor with
        | Except.error e => VmTrans.err e s
        | Except.ok none => VmTrans.panicked "not yet implemented"
        | Except.ok (some record) =>
          match record[column]? with
          | none => VmTrans.panicked "record column index out of bounds"
          | some v =>
            if dest < s.registers.length then
              VmTrans.cont { s with
                registers := s.registers.set dest v, pc := s.pc + 1 }
            else VmTrans.panicked "register index out of bounds"
    | Insn.ResultRow register_start register_end =>
      match make_record s.registers register_end register_start with
      | none => VmTrans.panicked "register index out of bounds"
      | some record =>
        VmTrans.ret (StepResult.Row record) { s with pc := s.pc + 1 }
    | Insn.NextAsync cursor_id =>
      match s.cursors cursor_id with
      | none => VmTrans.panicked "unwrap on None"
      | some cursor =>
        match ops.next cursor with
        | Except.error e => VmTrans.err e s
        | Except.ok (CursorResult.Io, cursor') =>
          VmTrans.ret StepResult.Io
            { s with cursors := cursorsInsert s.cursors cursor_id cursor' }
        | Except.ok (CursorResult.Ok, cursor') =>
          VmTrans.cont { s with
            cursors := cursorsInsert s.cursors cursor_id cursor',
            pc := s.pc + 1 }
    | Insn.NextAwait cursor_id pc_if_next =>
      match s.cursors cursor_id with
      | none => VmTrans.panicked "unwrap on None"
      | some cursor =>
        match ops.wait_for_completion cursor with
        | Except.error e => VmTrans.err e s
        | Except.ok cursor' =>
          if ops.is_empty cursor' then
            VmTrans.cont { s with
              cursors := cursorsInsert s.cursors cursor_id cursor',
              pc := s.pc + 1 }
          else
            VmTrans.cont { s with
              cursors := cursorsInsert s.cursors cursor_id cursor',
              pc := pc_if_next }
    | Insn.Halt => VmTrans.ret StepResult.Done s
    | Insn.Transaction => VmTrans.cont { s with pc := s.pc + 1 }
    | Insn.Goto target_pc => VmTrans.cont { s with pc := target_pc }
    | Insn.Integer value dest =>
      if dest < s.registers.length then
        VmTrans.cont { s with
          registers := s.registers.set dest (OwnedValue.Integer value),
          pc := s.pc + 1 }
      else VmTrans.panicked "register index out of bounds"
    | Insn.String8 value dest =>
      if dest < s.registers.length then
        VmTrans.cont { s with
          registers := s.registers.set dest (OwnedValue.Text value),
          pc := s.pc + 1 }
      else VmTrans.panicked "register index out of bounds"
    | Insn.RowId cursor_id dest =>
      match s.cursors cursor_id with
      | none => VmTrans.panicked "unwrap on None"
      | some cursor =>
        match ops.rowid cursor with
        | Except.error e => VmTrans.err e s
        | Except.ok none => VmTrans.panicked "not yet implemented"
        | Except.ok (some rowid) =>
          if dest < s.registers.length then
            VmTrans.cont { s with
              registers := s.registers.set dest (OwnedValue.Integer rowid),
              pc := s.pc + 1 }
          else VmTrans.panicked "register index out of bounds"
    | Insn.DecrJumpZero reg target_pc =>
      match s.registers[reg]? with
      | none => VmTrans.panicked "register index out of bounds"
      | some (OwnedValue.Integer n) =>
        if n > 0 then
          VmTrans.cont { s with
            registers := s.registers.set reg (OwnedValue.Integer (n - 1)),
            pc := s.pc + 1 }
        else VmTrans.cont { s with pc := target_pc }
      | some _ => VmTrans.panicked "DecrJumpZero on non-integer register"

/-- Outcome of a full `Program::step` call: a `StepResult` with the program
state it leaves behind, an error, a panic, or fuel exhaustion (the Rust loop
would spin forever). -/
inductive StepOut (κ : Type) where
  | ret : StepResult → ProgramState κ → StepOut κ
  | err : String → ProgramState κ → StepOut κ
  | panicked : String → StepOut κ
  | diverge : StepOut κ

/-- `Program::step`: the dispatch loop, with fuel bounding the number of
iterations. -/
def Program.step (ops : CursorOps κ) (p : Program) :
    Nat → ProgramState κ → StepOut κ
  | 0, _ => StepOut.diverge
  | fuel + 1, s =>
    match execInsn ops p s with
    | VmTrans.cont s' => Program.step ops p fuel s'
    | VmTrans.ret r s' => StepOut.ret r s'
    | VmTrans.err e s' => StepOut.err e s'
    | VmTrans.panicked m => StepOut.panicked m

/-- Repeatedly call `step` (each call with the given fuel), collecting the
sequence of `StepResult`s the caller observes; stop after the first
non-`Row` result or after `n` calls. -/
def runSteps (ops : CursorOps κ) (p : Program) (fuel : Nat) :
    Nat → ProgramState κ → List StepResult
  | 0, _ => []
  | n + 1, s =>
    match Program.step ops p fuel s with
    | StepOut.ret (StepResult.Row r) s' =>
      StepResult.Row r :: runSteps ops p fuel n s'
    | StepOut.ret r _ => [r]
    | _ => []

/-- A trivial cursor implementation over `Unit`, used to run cursor-free
programs concretely. -/
def trivOps : CursorOps Unit :=
  { new_cursor := fun _ => ()
    rewind := fun c => Except.ok (CursorResult.Ok, c)
    next := fun c => Except.ok (CursorResult.Ok, c)
    wait_for_completion := fun c => Except.ok c
    is_empty := fun _ => true
    record := fun _ => Except.ok none
    rowid := fun _ => Except.ok none }

/-- The counter-loop program of spec scenario 3:
`Integer(3, r0); L: DecrJumpZero(r0, End); ResultRow(r0, r0+1); Goto L;
End: Halt` with `r0 = 0`, `L = 1`, `End = 4`. -/
def counterProgram : Program :=
  { max_registers := 1,
    insns := [Insn.Integer 3 0, Insn.DecrJumpZero 0 4,
      Insn.ResultRow 0 1, Insn.Goto 1, Insn.Halt],
    program_type := ProgramType.Default }

/-- `struct ProgramBuilder` in `vdbe.rs`. -/
structure ProgramBuilder where
  next_free_register : Nat
  next_free_cursor_id : Nat
  insns : List Insn
deriving Repr

/-- `ProgramBuilder::new`. -/
def ProgramBuilder.new : ProgramBuilder :=
  { next_free_register := 0, next_free_cursor_id := 0, insns := [] }

/-- `ProgramBuilder::alloc_register`: return the current counter and bump it. -/
def ProgramBuilder.alloc_register (b : ProgramBuilder) : Nat × ProgramBuilder :=
  (b.next_free_register, { b with next_free_register := b.next_free_register + 1 })

/-- `ProgramBuilder::alloc_cursor_id`. -/
def ProgramBuilder.alloc_cursor_id (b : ProgramBuilder) : Nat × ProgramBuilder :=
  (b.next_free_cursor_id,
   { b with next_free_cursor_id := b.next_free_cursor_id + 1 })

/-- `ProgramBuilder::emit_placeholder`: record the current offset, push a
`Halt`, return the offset. -/
def ProgramBuilder.emit_placeholder (b : ProgramBuilder) : Nat × ProgramBuilder :=
  (b.insns.length, { b with insns := b.insns ++ [Insn.Halt] })

/-- `ProgramBuilder::emit_insn`. -/
def ProgramBuilder.emit_insn (b : ProgramBuilder) (insn : Insn) : ProgramBuilder :=
  { b with insns := b.insns ++ [insn] }

/-- `ProgramBuilder::fixup_insn`: overwrite the instruction at `offset`. -/
def ProgramBuilder.fixup_insn (b : ProgramBuilder) (offset : Nat) (insn : Insn) :
    ProgramBuilder :=
  { b with insns := b.insns.set offset insn }

/-- `ProgramBuilder::offset`. -/
def ProgramBuilder.offset (b : ProgramBuilder) : Nat :=
  b.insns.length

/-- `ProgramBuilder::build`: `max_registers` is the number of registers
allocated so far. -/
def ProgramBuilder.build (b : ProgramBuilder) : Program :=
  { max_registers := b.next_free_register, insns := b.insns,
    program_type := ProgramType.Default }

/-- One mutating call on a `ProgramBuilder`, used to quantify over arbitrary
construction histories. -/
inductive BuildOp where
  | allocReg
  | allocCur
  | emit (insn : Insn)
  | placeholder
  | fixup (offset : Nat) (insn : Insn)
deriving Repr

/-- Apply one builder call, discarding its returned value. -/
def applyOp (b : ProgramBuilder) : BuildOp → ProgramBuilder
  | BuildOp.allocReg => b.alloc_register.2
  | BuildOp.allocCur => b.alloc_cursor_id.2
  | BuildOp.emit insn => b.emit_insn insn
  | BuildOp.placeholder => b.emit_placeholder.2
  | BuildOp.fixup offset insn => b.fixup_insn offset insn

/-- Apply a sequence of builder calls in order. -/
def applyOps (b : ProgramBuilder) : List BuildOp → ProgramBuilder
  | [] => b
  | op :: ops => applyOps (applyOp b op) ops

/-- Count the `alloc_register` calls in a history. -/
def countAllocReg : List BuildOp → Nat
  | [] => 0
  | BuildOp.allocReg :: ops => countAllocReg ops + 1
  | _ :: ops => countAllocReg ops

/-- Count the `alloc_cursor_id` calls in a history. -/
def countAllocCur : List BuildOp → Nat
  | [] => 0
  | BuildOp.allocCur :: ops => countAllocCur ops + 1
  | _ :: ops => countAllocCur ops

/-- Observable effects of `WindowsFile::pread` in `src/core/io/windows.rs`,
in the order they happen: the seek, `read_exact` filling the completion's
buffer, and `completion.complete()`. -/
inductive IoEvent where
  | seekEv
  | readEv
  | completeEv
deriving DecidableEq, Repr

/-- `WindowsFile::pread`: seek to `pos`, `read_exact` into the completion's
buffer, then `c.complete()`, returning `Ok(())`.  The outcomes of the two
fallible OS calls are inputs; the returned trace lists the effects that
actually happened, in order.  A failing seek or read makes `pread` return
the error via `?` before any later effect runs. -/
def pread (seekRes : Except String Unit) (readRes : Except String Unit) :
    Except String Unit × List IoEvent :=
  match seekRes with
  | Except.error e => (Except.error e, [])
  | Except.ok _ =>
    match readRes with
    | Except.error e => (Except.error e, [IoEvent.seekEv])
    | Except.ok _ =>
      (Except.ok (), [IoEvent.seekEv, IoEvent.readEv, IoEvent.completeEv])

/-- A cursor implementation over `Unit` whose `rewind` and `next` always
report pending I/O. -/
def ioOps : CursorOps Unit :=
  { trivOps with
    rewind := fun c => Except.ok (CursorResult.Io, c)
    next := fun c => Except.ok (CursorResult.Io, c) }

/-- A cursor table holding one cursor with ID 0. -/
def oneCursor : Nat → Option Unit :=
  fun k => if k = 0 then some () else none

/-- State of `counterProgram` poised on its `DecrJumpZero` with `r0 = 3`. -/
def c2state : ProgramState Unit :=
  { pc := 1, cursors := fun _ => none, registers := [OwnedValue.Integer 3] }

/-- One-instruction program holding a `RewindAsync` on cursor 0. -/
def rewindAsyncProg : Program :=
  { max_registers := 0, insns := [Insn.RewindAsync 0],
    program_type := ProgramType.Default }

/-- One-instruction program holding a `NextAsync` on cursor 0. -/
def nextAsyncProg : Program :=
  { max_registers := 0, insns := [Insn.NextAsync 0],
    program_type := ProgramType.Default }

/-- Program holding a `RewindAwait` on cursor 0 with `pc_if_empty = 5`. -/
def rewindAwaitProg : Program :=
  { max_registers := 0, insns := [Insn.RewindAwait 0 5],
    program_type := ProgramType.Default }

/-- Program holding a `NextAwait` on cursor 0 with `pc_if_next = 5`. -/
def nextAwaitProg : Program :=
  { max_registers := 0, insns := [Insn.NextAwait 0 5],
    program_type := ProgramType.Default }

/-- State with exactly cursor 0 open and no registers. -/
def cursorState : ProgramState Unit :=
  { pc := 0, cursors := oneCursor, registers := [] }

/-- State of `counterProgram` poised on its final `Halt`. -/
def c10state : ProgramState Unit :=
  { pc := 4, cursors := fun _ => none, registers := [OwnedValue.Integer 0] }

/-- Program emitting `r0..r2` as a row; 2 registers. -/
def resultRowProg : Program :=
  { max_registers := 2, insns := [Insn.ResultRow 0 2, Insn.Halt],
    program_type := ProgramType.Default }

/-- State for `resultRowProg` with distinct register contents. -/
def c4state : ProgramState Unit :=
  { pc := 0, cursors := fun _ => none,
    registers := [OwnedValue.Integer 5, OwnedValue.Text "x"] }

/-- Program with 2 registers that emits only register 0 as its row. -/
def c6prog : Program :=
  { max_registers := 2,
    insns := [Insn.Integer 7 0, Insn.ResultRow 0 1, Insn.Halt],
    program_type := ProgramType.Default }

/-- The state `c6prog` reaches when its `ResultRow` returns. -/
def c6state : ProgramState Unit :=
  { pc := 2, cursors := fun _ => none,
    registers := [OwnedValue.Integer 7, OwnedValue.Null] }

/-- Program dispatching `Column` on cursor 0. -/
def c7colProg : Program :=
  { max_registers := 1, insns := [Insn.Column 0 0 0, Insn.Halt],
    program_type := ProgramType.Default }

/-- Program dispatching `RowId` on cursor 0. -/
def c7rowProg : Program :=
  { max_registers := 1, insns := [Insn.RowId 0 0, Insn.Halt],
    program_type := ProgramType.Default }

/-- State with cursor 0 open and one `Null` register. -/
def c7state : ProgramState Unit :=
  { pc := 0, cursors := oneCursor, registers := [OwnedValue.Null] }

/-- Length of the register file carried by a dispatch outcome that still has
a state (`cont` or `ret`); `default` elsewhere. -/
def transRegsLen (default : Nat) : VmTrans κ → Nat
  | VmTrans.cont s' => s'.registers.length
  | VmTrans.ret _ s' => s'.registers.length
  | VmTrans.err _ s' => s'.registers.length
  | VmTrans.panicked _ => default

lemma execInsn_preserves_regs_len (ops : CursorOps κ) (p : Program)
    (s : ProgramState κ) :
    transRegsLen s.registers.length (execInsn ops p s) = s.registers.length := by
  unfold execInsn
  repeat' split
  all_goals simp_all [transRegsLen, List.length_set]

lemma step_ret_regs_len (ops : CursorOps κ) (p : Program) :
    ∀ (fuel : Nat) (s s' : ProgramState κ) (r : StepResult),
      Program.step ops p fuel s = StepOut.ret r s' →
      s'.registers.length = s.registers.length := by
  intro fuel
  induction fuel with
  | zero => intro s s' r h; simp [Program.step] at h
  | succ n ih =>
    intro s s' r h
    have hlen := execInsn_preserves_regs_len ops p s
    rw [Program.step] at h
    cases he : execInsn ops p s with
    | cont s₁ =>
      rw [he] at h hlen
      exact (ih s₁ s' r h).trans hlen
    | ret r₁ s₁ =>
      rw [he] at h hlen
      cases h
      exact hlen
    | err e s₁ => rw [he] at h; cases h
    | panicked m => rw [he] at h; cases h

lemma countAllocReg_append (xs ys : List BuildOp) :
    countAllocReg (xs ++ ys) = countAllocReg xs + countAllocReg ys := by
  induction xs with
  | nil => simp [countAllocReg]
  | cons op xs ih =>
    cases op <;> simp [countAllocReg, ih] <;> omega

lemma applyOps_next_free_register (ops : List BuildOp) :
    ∀ b : ProgramBuilder,
      (applyOps b ops).next_free_register =
        b.next_free_register + countAllocReg ops := by
  induction ops with
  | nil => intro b; simp [applyOps, countAllocReg]
  | cons op ops ih =>
    intro b
    cases op <;>
      simp [applyOps, applyOp, countAllocReg, ih,
        ProgramBuilder.alloc_register, ProgramBuilder.alloc_cursor_id,
        ProgramBuilder.emit_insn, ProgramBuilder.emit_placeholder,
        ProgramBuilder.fixup_insn] <;> omega

lemma applyOps_next_free_cursor_id (ops : List BuildOp) :
    ∀ b : ProgramBuilder,
      (applyOps b ops).next_free_cursor_id =
        b.next_free_cursor_id + countAllocCur ops := by
  induction ops with
  | nil => intro b; simp [applyOps, countAllocCur]
  | cons op ops ih =>
    intro b
    cases op <;>
      simp [applyOps, applyOp, countAllocCur, ih,
        ProgramBuilder.alloc_register, ProgramBuilder.alloc_cursor_id,
        ProgramBuilder.emit_insn, ProgramBuilder.emit_placeholder,
        ProgramBuilder.fixup_insn] <;> omega

/-- Claim C5: the five-instruction counter-loop program
`Integer(3, r0); L: DecrJumpZero(r0, End); ResultRow(r0, r0+1); Goto L;
End: Halt`, started from a fresh program state, yields under repeated
`step` calls exactly `Row [Integer 2]`, `Row [Integer 1]`, `Row [Integer 0]`
and then `Done`, with no `IO` returns. -/
theorem counterProgram_rows :
    runSteps trivOps counterProgram 10 5 (ProgramState.new Unit 1) =
      [StepResult.Row [OwnedValue.Integer 2],
       StepResult.Row [OwnedValue.Integer 1],
       StepResult.Row [OwnedValue.Integer 0],
       StepResult.Done] := by decide

/-- Claim C10: when the current instruction is `Halt`, `step` returns `Done`
and leaves the program state (PC, registers, cursor table) untouched, so a
second `step` call on the same state returns `Done` again: `Done` is
idempotent and absorbing. -/
theorem halt_done_absorbing (ops : CursorOps κ) (p : Program) (f g : Nat)
    (s : ProgramState κ) (h : p.insns[s.pc]? = some Insn.Halt) :
    Program.step ops p (f + 1) s = StepOut.ret StepResult.Done s ∧
    Program.step ops p (g + 1) s = StepOut.ret StepResult.Done s := by
  constructor <;> (rw [Program.step]; unfold execInsn; rw [h])

/-- Witness for C10: the counter-loop program halted at PC 4 returns `Done`
twice with the state unchanged. -/
theorem halt_done_absorbing_witness :
    Program.step trivOps counterProgram 1 c10state =
      StepOut.ret StepResult.Done c10state ∧
    Program.step trivOps counterProgram 7 c10state =
      StepOut.ret StepResult.Done c10state :=
  halt_done_absorbing trivOps counterProgram 0 6 c10state (by decide)

/-- Claim C7: `Column` and `RowId` dispatched on a cursor without a current
record / rowid do not return an `Internal` error from `step`: the source
hits its `todo!` macro and the program panics.  This theorem evaluates the
embedded code at the failing inputs and exhibits the panic outcome. -/
theorem column_rowid_todo_panics :
    Program.step trivOps c7colProg 2 c7state =
      StepOut.panicked "not yet implemented" ∧
    Program.step trivOps c7rowProg 2 c7state =
      StepOut.panicked "not yet implemented" :=
  ⟨rfl, rfl⟩

/-- Claim C2: dispatching `DecrJumpZero(reg, target_pc)` when `reg[reg]`
holds `Integer n` decrements the register and advances the PC when
`n > 0`, and jumps to `target_pc` without touching the register when
`n ≤ 0`; every other register and the cursor table are unchanged in both
cases. -/
theorem decrJumpZero_semantics (ops : CursorOps κ) (p : Program)
    (s : ProgramState κ) (reg target_pc : Nat) (n : Int)
    (hinsn : p.insns[s.pc]? = some (Insn.DecrJumpZero reg target_pc))
    (hreg : s.registers[reg]? = some (OwnedValue.Integer n)) :
    ∃ s', execInsn ops p s = VmTrans.cont s' ∧
      (if n > 0 then
        s'.pc = s.pc + 1 ∧
          s'.registers[reg]? = some (OwnedValue.Integer (n - 1))
      else
        s'.pc = target_pc ∧
          s'.registers[reg]? = some (OwnedValue.Integer n)) ∧
      (∀ j, j ≠ reg → s'.registers[j]? = s.registers[j]?) ∧
      s'.cursors = s.cursors := by
  have hlt : reg < s.registers.length := (List.getElem?_eq_some.mp hreg).1
  simp only [execInsn, hinsn, hreg]
  by_cases hn : n > 0
  · simp only [hn, if_true]
    refine ⟨_, rfl, ⟨rfl, List.getElem?_set_eq_of_lt _ hlt⟩, ?_, rfl⟩
    intro j hj
    exact List.getElem?_set_ne (fun hc => hj hc.symm)
  · simp only [hn, if_false]
    exact ⟨_, rfl, ⟨rfl, hreg⟩, fun j _ => rfl, rfl⟩

/-- Witness for C2: the counter program's `DecrJumpZero` at PC 1 with
`r0 = 3` decrements to 2 and advances. -/
theorem decrJumpZero_semantics_witness :
    ∃ s', execInsn trivOps counterProgram c2state = VmTrans.cont s' ∧
      (if (3 : Int) > 0 then
        s'.pc = c2state.pc + 1 ∧
          s'.registers[0]? = some (OwnedValue.Integer (3 - 1))
      else
        s'.pc = 4 ∧ s'.registers[0]? = some (OwnedValue.Integer 3)) ∧
      (∀ j, j ≠ 0 → s'.registers[j]? = c2state.registers[j]?) ∧
      s'.cursors = c2state.cursors :=
  decrJumpZero_semantics trivOps counterProgram c2state 0 4 3 (by decide) rfl

/-- Claim C1: when the dispatch of `RewindAsync` or `NextAsync` gets an
I/O-pending result from the cursor, `step` returns `IO` with the PC still
referencing the same async instruction and no register modified, so the
next `step` call re-executes the identical instruction. -/
theorem async_io_keeps_pc (ops : CursorOps κ) (p : Program) (fuel : Nat)
    (s : ProgramState κ) (cid : Nat) (c c' : κ)
    (hcur : s.cursors cid = some c)
    (h : (p.insns[s.pc]? = some (Insn.RewindAsync cid) ∧
            ops.rewind c = Except.ok (CursorResult.Io, c')) ∨
         (p.insns[s.pc]? = some (Insn.NextAsync cid) ∧
            ops.next c = Except.ok (CursorResult.Io, c'))) :
    ∃ s', Program.step ops p (fuel + 1) s = StepOut.ret StepResult.Io s' ∧
      s'.pc = s.pc ∧ s'.registers = s.registers ∧
      p.insns[s'.pc]? = p.insns[s.pc]? := by
  rw [Program.step]
  rcases h with ⟨hinsn, hio⟩ | ⟨hinsn, hio⟩ <;>
    simp only [execInsn, hinsn, hcur, hio] <;>
    exact ⟨_, rfl, rfl, rfl, hinsn⟩

/-- Witness for C1: a `RewindAsync` whose cursor reports I/O leaves the PC
and registers in place. -/
theorem async_io_keeps_pc_witness :
    ∃ s', Program.step ioOps rewindAsyncProg 1 cursorState =
        StepOut.ret StepResult.Io s' ∧
      s'.pc = cursorState.pc ∧ s'.registers = cursorState.registers ∧
      rewindAsyncProg.insns[s'.pc]? = rewindAsyncProg.insns[cursorState.pc]? :=
  async_io_keeps_pc ioOps rewindAsyncProg 0 cursorState 0 () ()
    rfl (Or.inl ⟨rfl, rfl⟩)

/-- Claim C3: `RewindAwait(cursor_id, pc_if_empty)` jumps to `pc_if_empty`
exactly when the cursor reports empty and otherwise advances the PC by one,
while `NextAwait(cursor_id, pc_if_next)` jumps to `pc_if_next` exactly when
the cursor is positioned on a valid cell (not empty) and otherwise
advances; registers are unchanged in all cases. -/
theorem await_branch_semantics (ops : CursorOps κ) (p : Program)
    (s : ProgramState κ) (cid pce pcn : Nat) (c c' : κ)
    (hcur : s.cursors cid = some c)
    (hwait : ops.wait_for_completion c = Except.ok c') :
    (p.insns[s.pc]? = some (Insn.RewindAwait cid pce) →
      ∃ s', execInsn ops p s = VmTrans.cont s' ∧
        s'.pc = (if ops.is_empty c' then pce else s.pc + 1) ∧
        s'.registers = s.registers) ∧
    (p.insns[s.pc]? = some (Insn.NextAwait cid pcn) →
      ∃ s', execInsn ops p s = VmTrans.cont s' ∧
        s'.pc = (if ops.is_empty c' then s.pc + 1 else pcn) ∧
        s'.registers = s.registers) := by
  constructor <;> intro hinsn <;>
    simp only [execInsn, hinsn, hcur, hwait] <;>
    cases he : ops.is_empty c' <;> simp [he]

/-- Witness for C3: with a cursor reporting empty, `RewindAwait 0 5` jumps
to 5 and `NextAwait 0 5` advances to PC 1. -/
theorem await_branch_semantics_witness :
    (∃ s', execInsn trivOps rewindAwaitProg cursorState = VmTrans.cont s' ∧
      s'.pc = (if trivOps.is_empty () then 5 else cursorState.pc + 1) ∧
      s'.registers = cursorState.registers) ∧
    (∃ s', execInsn trivOps nextAwaitProg cursorState = VmTrans.cont s' ∧
      s'.pc = (if trivOps.is_empty () then cursorState.pc + 1 else 5) ∧
      s'.registers = cursorState.registers) :=
  ⟨(await_branch_semantics trivOps rewindAwaitProg cursorState 0 5 5 () ()
      rfl rfl).1 rfl,
   (await_branch_semantics trivOps nextAwaitProg cursorState 0 5 5 () ()
      rfl rfl).2 rfl⟩

/-- Claim C4: `ResultRow(register_start, register_end)` makes `step` return
`Row(record)` where the record's values are exactly the register contents
at indices `register_start` up to but excluding `register_end`, in index
order; the stored PC is the instruction's address plus one and no register
or cursor is modified. -/
theorem resultRow_semantics (ops : CursorOps κ) (p : Program) (fuel : Nat)
    (s : ProgramState κ) (register_start register_end : Nat)
    (hinsn : p.insns[s.pc]? = some (Insn.ResultRow register_start register_end))
    (hse : register_start ≤ register_end)
    (hem : register_end ≤ p.max_registers)
    (hlen : s.registers.length = p.max_registers) :
    ∃ r s', Program.step ops p (fuel + 1) s =
        StepOut.ret (StepResult.Row r) s' ∧
      s'.pc = s.pc + 1 ∧ s'.registers = s.registers ∧ s'.cursors = s.cursors ∧
      r.length = register_end - register_start ∧
      (∀ i, i < register_end - register_start →
        r[i]? = s.registers[register_start + i]?) := by
  have hre : register_end ≤ s.registers.length := hlen ▸ hem
  rw [Program.step]
  simp only [execInsn, hinsn]
  unfold make_record
  by_cases h1 : register_end ≤ register_start
  · simp only [h1, if_true]
    refine ⟨[], _, rfl, rfl, rfl, rfl, by simp; omega, ?_⟩
    intro i hi
    omega
  · simp only [h1, if_false, hre, if_true]
    refine ⟨_, _, rfl, rfl, rfl, rfl, ?_, ?_⟩
    · simp only [List.length_take, List.length_drop]
      omega
    · intro i hi
      rw [List.getElem?_take_of_lt hi, List.getElem?_drop]

/-- Witness for C4: emitting `r0..r2` of a 2-register state returns both
register values in order with the PC advanced. -/
theorem resultRow_semantics_witness :
    ∃ r s', Program.step trivOps resultRowProg 1 c4state =
        StepOut.ret (StepResult.Row r) s' ∧
      s'.pc = c4state.pc + 1 ∧ s'.registers = c4state.registers ∧
      s'.cursors = c4state.cursors ∧
      r.length = 2 - 0 ∧
      (∀ i, i < 2 - 0 → r[i]? = c4state.registers[0 + i]?) :=
  resultRow_semantics trivOps resultRowProg 0 c4state 0 2
    rfl (by decide) (by decide) rfl

/-- Claim C6 counterexample: a program with two registers that emits a
one-column row.  After the first `Row`, `column_count` returns 2 (the
register count), not the width 1 of the emitted record, refuting the claim
that it returns the number of columns of the result row. -/
theorem column_count_counterexample :
    Program.step trivOps c6prog 9 (ProgramState.new Unit 2) =
      StepOut.ret (StepResult.Row [OwnedValue.Integer 7]) c6state ∧
    List.length [OwnedValue.Integer 7] = 1 ∧
    c6state.column_count = 2 ∧ c6state.column_count ≠ 1 :=
  ⟨rfl, rfl, rfl, by decide⟩

/-- Claim C6 amended: after `step` returns from a state constructed with
`max_registers` registers, `column_count` returns that total register count
(`registers.len()`), which need not equal the width of the emitted row. -/
theorem column_count_is_register_count (ops : CursorOps κ) (p : Program)
    (fuel : Nat) (r : StepResult) (s' : ProgramState κ)
    (h : Program.step ops p fuel (ProgramState.new κ p.max_registers) =
      StepOut.ret r s') :
    s'.column_count = p.max_registers := by
  have hl := step_ret_regs_len ops p fuel
    (ProgramState.new κ p.max_registers) s' r h
  simpa [ProgramState.column_count, ProgramState.new] using hl

/-- Witness for the amended C6: the two-register program's post-`Row` state
has `column_count` 2. -/
theorem column_count_is_register_count_witness :
    c6state.column_count = c6prog.max_registers :=
  column_count_is_register_count trivOps c6prog 9
    (StepResult.Row [OwnedValue.Integer 7]) c6state rfl

/-- Claim C8: starting from a fresh `ProgramBuilder` and applying any
sequence of builder calls, the next `alloc_register` returns the number of
`alloc_register` calls made so far (so the k-th call returns k-1), and
likewise for `alloc_cursor_id`; `emit_placeholder` returns the current
offset and puts a `Halt` there; `build` sets `max_registers` to the total
number of registers allocated, so the index returned by any
`alloc_register` call of the history is below `max_registers` of the built
program. -/
theorem builder_monotone_allocation (ops pre post : List BuildOp) :
    (applyOps ProgramBuilder.new ops).alloc_register.1 = countAllocReg ops ∧
    (applyOps ProgramBuilder.new ops).alloc_cursor_id.1 = countAllocCur ops ∧
    (applyOps ProgramBuilder.new ops).emit_placeholder.1 =
      (applyOps ProgramBuilder.new ops).offset ∧
    ((applyOps ProgramBuilder.new ops).emit_placeholder.2.insns[
      (applyOps ProgramBuilder.new ops).emit_placeholder.1]?) =
      some Insn.Halt ∧
    (applyOps ProgramBuilder.new ops).build.max_registers = countAllocReg ops ∧
    (applyOps ProgramBuilder.new pre).alloc_register.1 <
      (applyOps ProgramBuilder.new
        (pre ++ BuildOp.allocReg :: post)).build.max_registers := by
  refine ⟨?_, ?_, rfl, ?_, ?_, ?_⟩
  · simp [ProgramBuilder.alloc_register, applyOps_next_free_register,
      ProgramBuilder.new]
  · simp [ProgramBuilder.alloc_cursor_id, applyOps_next_free_cursor_id,
      ProgramBuilder.new]
  · exact List.getElem?_concat_length _ _
  · simp [ProgramBuilder.build, applyOps_next_free_register,
      ProgramBuilder.new]
  · simp [ProgramBuilder.build, ProgramBuilder.alloc_register,
      applyOps_next_free_register, ProgramBuilder.new,
      countAllocReg_append, countAllocReg]

/-- Claim C9: `WindowsFile::pread` returns `Ok` only after seeking, reading
the bytes into the completion's buffer and then invoking
`completion.complete()` exactly once; when the seek or the read fails it
returns the error without ever invoking `complete()`. -/
theorem pread_fires_completion_iff_ok (seekRes readRes : Except String Unit) :
    ((pread seekRes readRes).1 = Except.ok () →
      (pread seekRes readRes).2.count IoEvent.completeEv = 1 ∧
      (pread seekRes readRes).2 =
        [IoEvent.seekEv, IoEvent.readEv, IoEvent.completeEv]) ∧
    (∀ e, (pread seekRes readRes).1 = Except.error e →
      (pread seekRes readRes).2.count IoEvent.completeEv = 0) := by
  cases seekRes with
  | error e =>
    refine ⟨fun h => ?_, fun e' h => ?_⟩
    · simp [pread] at h
    · simp [pread]
  | ok u =>
    cases readRes with
    | error e =>
      refine ⟨fun h => ?_, fun e' h => ?_⟩
      · simp [pread] at h
      · simp [pread]
    | ok v =>
      refine ⟨fun h => ⟨rfl, rfl⟩, fun e' h => ?_⟩
      simp [pread] at h

/-- Witness for C9: with both OS calls succeeding the completion fires once
after the read; with a failing seek it never fires. -/
theorem pread_fires_completion_witness :
    ((pread (Except.ok ()) (Except.ok ())).2.count IoEvent.completeEv = 1 ∧
     (pread (Except.ok ()) (Except.ok ())).2 =
       [IoEvent.seekEv, IoEvent.readEv, IoEvent.completeEv]) ∧
    (pread (Except.error "boom") (Except.ok ())).2.count IoEvent.completeEv
      = 0 :=
  ⟨(pread_fires_completion_iff_ok (Except.ok ()) (Except.ok ())).1 rfl,
   (pread_fires_completion_iff_ok (Except.error "boom")
      (Except.ok ())).2 "boom" rfl⟩
